import Mathlib

/-!
Verification development for the hsl-poikkeusinfo repository
(poikkeusinfo.py and local_settings.py).

The Python code is shallowly embedded: each method of PoikkeusInfoParser
and PoikkeusInfoFilter becomes an executable Lean definition over explicit
data types modelling the xmltodict output tree.  Python datetime values
are modelled as total seconds (Int) of a proleptic Gregorian calendar,
matching datetime.toordinal; pytz localize is modelled as tagging the
naive wall-clock value with the zone name.  Python dicts that carry a
known set of keys become structures; values that may be absent become
Option.  Exceptions that the code can raise (KeyError on the type/source
lookup tables, ValueError from datetime parsing/construction) are
modelled with Except PyError.
-/

/-! ## Proleptic Gregorian calendar, as in the Python datetime module -/

def isLeapYear (y : Nat) : Bool := y % 4 == 0 && (y % 100 != 0 || y % 400 == 0)

def daysInMonth (y m : Nat) : Nat :=
  [31, if isLeapYear y then 29 else 28, 31, 30, 31, 30, 31, 31, 30, 31, 30, 31].getD (m - 1) 0

def daysBeforeYear (y : Nat) : Nat :=
  (y - 1) * 365 + (y - 1) / 4 - (y - 1) / 100 + (y - 1) / 400

def daysBeforeMonth (y m : Nat) : Nat :=
  ((List.range (m - 1)).map (fun i => daysInMonth y (i + 1))).sum

/-- Day ordinal as in datetime.toordinal: January 1 of year 1 is day 1. -/
def toOrdinal (y m d : Nat) : Nat := daysBeforeYear y + daysBeforeMonth y m + d

/-- The datetime constructor: validates the fields (as Python datetime does,
raising ValueError otherwise) and yields total seconds since the epoch of
the ordinal scale. -/
def mkDatetime (y m d h mi s : Nat) : Option Int :=
  if 1 ≤ y ∧ y ≤ 9999 ∧ 1 ≤ m ∧ m ≤ 12 ∧ 1 ≤ d ∧ d ≤ daysInMonth y m
      ∧ h ≤ 23 ∧ mi ≤ 59 ∧ s ≤ 59 then
    some ((toOrdinal y m d : Int) * 86400 + h * 3600 + mi * 60 + s)
  else none

/-- datetime.datetime(1900, 1, 1), the fixed base value used by parse_length. -/
def dt1900 : Int := (toOrdinal 1900 1 1 : Int) * 86400

/-! ## A backtracking regex engine

Python re.match runs a backtracking engine: alternation tries the left
branch first, bounded repetition of a character class tries the longest
repeat first, and the first overall success is returned.  RxM enumerates
the candidate continuations of a pattern in exactly that priority order,
so the head of the final list is the match Python would return. -/

def RxM (α : Type) : Type := List Char → List (α × List Char)

def rxPure {α : Type} (a : α) : RxM α := fun s => [(a, s)]

def rxBind {α β : Type} (p : RxM α) (f : α → RxM β) : RxM β :=
  fun s => (p s).flatMap (fun r => f r.1 r.2)

def rxMap {α β : Type} (f : α → β) (p : RxM α) : RxM β :=
  fun s => (p s).map (fun r => (f r.1, r.2))

def rxAlt {α : Type} (p q : RxM α) : RxM α := fun s => p s ++ q s

def rxSeq (p q : RxM (List Char)) : RxM (List Char) :=
  rxBind p (fun a => rxMap (fun b => a ++ b) q)

/-- The end-of-input anchor (the dollar sign). -/
def rxEnd : RxM (List Char) := fun s => if s.isEmpty then [([], [])] else []

/-- A literal string in the pattern. -/
def rxLit (t : String) : RxM (List Char) :=
  fun s => if t.data.isPrefixOf s then [(t.data, s.drop t.data.length)] else []

/-- A fixed-length run of characters, the i-th matching the i-th class. -/
def rxChars : List (Char → Bool) → RxM (List Char)
  | [] => rxPure []
  | p :: ps => fun s =>
    match s with
    | [] => []
    | c :: rest => if p c then (rxChars ps rest).map (fun r => (c :: r.1, r.2)) else []

/-- Greedy unbounded repetition of a character class (cls followed by a star):
all possible consumption lengths, longest first. -/
def rxClassStar (cls : Char → Bool) : RxM (List Char) :=
  fun s =>
    let run := s.takeWhile cls
    ((List.range (run.length + 1)).reverse).map (fun k => (run.take k, s.drop k))

/-- Greedy bounded repetition of a character class, between lo and hi
occurrences, longest first. -/
def rxClassRep (cls : Char → Bool) (lo hi : Nat) : RxM (List Char) :=
  fun s =>
    let run := s.takeWhile cls
    ((List.range (min hi run.length + 1)).reverse).filterMap
      (fun k => if lo ≤ k then some (run.take k, s.drop k) else none)

/-- First match of an anchored pattern, as re.match returns it. -/
def rxMatch {α : Type} (p : RxM α) (s : List Char) : Option α :=
  ((p s).head?).map (fun r => r.1)

/-- The character class of the backslash-s escape on a byte string in
Python 2 (space, tab, newline, carriage return, vertical tab, form feed). -/
def pySpace (c : Char) : Bool :=
  c = ' ' || c = '\t' || c = '\n' || c = '\r' || c = '\x0b' || c = '\x0c'

/-! ## The strptime model

CPython strptime compiles a format string into one regex whose directives
use fixed alternations (day: 3[01] or [12] digit or 0[1-9] or [1-9], and
so on), matches it against the whole input, and then feeds the captured
fields to the datetime constructor, which validates them. -/

def isD (c : Char) : Bool := c.isDigit

def rng (lo hi : Char) (c : Char) : Bool := lo ≤ c && c ≤ hi

def digitsVal (cs : List Char) : Nat :=
  cs.foldl (fun a c => a * 10 + (c.toNat - '0'.toNat)) 0

def rxDay : RxM Nat :=
  rxMap digitsVal
    (rxAlt (rxChars [fun c => c = '3', rng '0' '1'])
      (rxAlt (rxChars [rng '1' '2', isD])
        (rxAlt (rxChars [fun c => c = '0', rng '1' '9'])
          (rxChars [rng '1' '9']))))

def rxMonth : RxM Nat :=
  rxMap digitsVal
    (rxAlt (rxChars [fun c => c = '1', rng '0' '2'])
      (rxAlt (rxChars [fun c => c = '0', rng '1' '9'])
        (rxChars [rng '1' '9'])))

def rxYear4 : RxM Nat := rxMap digitsVal (rxChars [isD, isD, isD, isD])

def rxHour : RxM Nat :=
  rxMap digitsVal
    (rxAlt (rxChars [fun c => c = '2', rng '0' '3'])
      (rxAlt (rxChars [rng '0' '1', isD]) (rxChars [isD])))

def rxMinute : RxM Nat :=
  rxMap digitsVal (rxAlt (rxChars [rng '0' '5', isD]) (rxChars [isD]))

def rxSecondD : RxM Nat :=
  rxMap digitsVal
    (rxAlt (rxChars [fun c => c = '6', rng '0' '1'])
      (rxAlt (rxChars [rng '0' '5', isD]) (rxChars [isD])))

/-- One strptime format directive. -/
inductive Dirv : Type
  | d | m | Y | H | Mi | S
  | lit (c : Char)

/-- The partially filled time tuple strptime builds, with its defaults. -/
structure TM where
  year : Nat := 1900
  month : Nat := 1
  day : Nat := 1
  hour : Nat := 0
  minute : Nat := 0
  second : Nat := 0

def dirvP : Dirv → RxM (TM → TM)
  | .d => rxMap (fun n tm => { tm with day := n }) rxDay
  | .m => rxMap (fun n tm => { tm with month := n }) rxMonth
  | .Y => rxMap (fun n tm => { tm with year := n }) rxYear4
  | .H => rxMap (fun n tm => { tm with hour := n }) rxHour
  | .Mi => rxMap (fun n tm => { tm with minute := n }) rxMinute
  | .S => rxMap (fun n tm => { tm with second := n }) rxSecondD
  | .lit c => rxMap (fun _ tm => tm) (rxChars [fun x => x = c])

def runFmt : List Dirv → RxM (TM → TM)
  | [] => rxPure id
  | dv :: rest => rxBind (dirvP dv) (fun f => rxMap (fun g => g ∘ f) (runFmt rest))

/-- datetime.strptime: the whole input must be consumed, then the fields are
validated by the datetime constructor (none models ValueError). -/
def strptime (fmt : List Dirv) (s : List Char) : Option Int :=
  match rxMatch (rxBind (runFmt fmt) (fun f => rxMap (fun _ => f) rxEnd)) s with
  | some f =>
    let tm := f {}
    mkDatetime tm.year tm.month tm.day tm.hour tm.minute tm.second
  | none => none

/-! ## Python str.split with a string separator -/

def pySplitGo (sep : List Char) : Nat → List Char → List Char → List (List Char)
  | 0, acc, s => [acc.reverse ++ s]
  | fuel + 1, acc, s =>
    match s with
    | [] => [acc.reverse]
    | c :: rest =>
      if sep.isPrefixOf s then
        acc.reverse :: pySplitGo sep fuel [] (s.drop sep.length)
      else
        pySplitGo sep fuel (c :: acc) rest

/-- str.split(sep) for a nonempty separator: split on every non-overlapping
occurrence, left to right.  The fuel bound is never reached. -/
def pySplit (sep s : List Char) : List (List Char) :=
  pySplitGo sep (s.length + 1) [] s

/-- str.strip(): whitespace removed from both ends. -/
def pyStrip (cs : List Char) : List Char :=
  ((cs.dropWhile pySpace).reverse.dropWhile pySpace).reverse

/-! ## PoikkeusInfoParser data -/

/-- The reference timestamp handed to the parser (datetime.now in the
excluded runner); only its year, month and day fields are read. -/
structure Timestamp where
  year : Nat
  month : Nat
  day : Nat
deriving DecidableEq

/-- A pytz-localized datetime: the zone name together with the naive
wall-clock value it was attached to (helsinki.localize keeps the wall
clock and tags the zone). -/
structure LocalizedDT where
  zone : String
  naive : Int
deriving DecidableEq

def helsinkiLocalize (n : Int) : LocalizedDT :=
  { zone := "Europe/Helsinki", naive := n }

/-- The exceptions the embedded code can raise: KeyError from the
type/source lookup tables (the hard parse failure the spec names
UnknownCodeError) and ValueError from datetime parsing or construction. -/
inductive PyError : Type
  | unknownCode (code : String)
  | valueError
deriving DecidableEq

namespace PoikkeusInfoParser

/-- dict.get k (and dict[k] when combined with an explicit error case):
first pair whose key equals k. -/
def mapGet : List (String × String) → String → Option String
  | [], _ => none
  | (k, v) :: rest, s => if k = s then some v else mapGet rest s

def TYPE_MAP : List (String × String) :=
  [("1", "advance_info"), ("2", "urgent_info")]

def SOURCE_MAP : List (String × String) :=
  [("1", "manual"), ("2", "automatic")]

def LINETYPE_MAP : List (String × String) :=
  [("1", "helsinki"), ("2", "tram"), ("3", "espoo"), ("4", "vantaa"),
   ("5", "regional_traffic"), ("6", "metro"), ("7", "ferry"), ("12", "train"),
   ("14", "all"), ("36", "kirkkonummi"), ("39", "kerava")]

def DIRECTION_MAP : List (String × String) :=
  [("1", "from_centrum"), ("2", "to_centrum")]

def REASON_MAP : List (String × String) :=
  [("Helsinki City Marathon", "yleisötapahtuma"),
   ("maraton", "yleisötapahtuma"),
   ("sambakulkue", "yleisötapahtuma"),
   ("liukkaus", "sääolosuhteet"),
   ("tien liukkaus", "sääolosuhteet"),
   ("Helsinki City Run", "yleisötapahtuma"),
   ("Vantaa Triathlon", "yleisötapahtuma"),
   ("lehtikelin aiheuttama liukkaus", "sääolosuhteet"),
   ("keliolosuhteet", "sääolosuhteet"),
   ("tekninen häiriö", "tekninen vika"),
   ("Tietyö", "tietyö"),
   ("Sääolosuhteet", "sääolosuhteet"),
   ("kulkue", "yleisötapahtuma"),
   ("juoksutapahtuma", "yleisötapahtuma"),
   ("virtahäiriö", "tekninen vika"),
   ("Työnseisaus", "lakko"),
   ("tie poikki (viranomaisten toimesta)", "tie poikki"),
   ("työnseisaus", "lakko"),
   ("tietyömaa", "tietyö"),
   ("työmaa", "tietyö"),
   ("vaihdevika", "tekninen vika radassa"),
   ("kiskotyöt", "ratatyöt"),
   ("Este tiellä", "este tiellä"),
   ("sääolosuhteet, ajolangat jäätyy", "sääolosuhteet"),
   ("väärin pysäköidyt autot", "väärin pysäköity auto"),
   ("väärin pysäköity auito", "väärin pysäköity auto")]

/-- REASON_MAP.get(reason, reason), the normalization step of parse_reason. -/
def normalizeReason (reason : String) : String :=
  (mapGet REASON_MAP reason).getD reason

/-! The three TIME_RE patterns.  Group values are returned as captured
character lists; groups the code never reads are not returned. -/

/-- Subpattern: one or two digits, a colon, two digits; or one or two
digits (the start_time group and the end_time group of the third regex). -/
def rxTime12 : RxM (List Char) :=
  rxAlt (rxSeq (rxClassRep isD 1 2) (rxSeq (rxLit ":") (rxClassRep isD 2 2)))
    (rxClassRep isD 1 2)

/-- Subpattern of the first regex for end_time: exactly two digits, a
colon, two digits; or one or two digits. -/
def rxEndTime2 : RxM (List Char) :=
  rxAlt (rxSeq (rxClassRep isD 2 2) (rxSeq (rxLit ":") (rxClassRep isD 2 2)))
    (rxClassRep isD 1 2)

/-- Subpattern for end_date: one or two digits, a dot, two digits. -/
def rxEndDate : RxM (List Char) :=
  rxSeq (rxClassRep isD 1 2) (rxSeq (rxLit ".") (rxClassRep isD 2 2))

def rxWs : RxM (List Char) := rxClassStar pySpace

/-- TIME_RE[0]: start_time, spaces, dash, spaces, end_date, an optional
dot, spaces, the mandatory klo or kello marker, optional dots, spaces,
end_time.  Returns (end_date, end_time). -/
def timeRe1 : RxM (List Char × List Char) :=
  rxBind rxTime12 (fun _ =>
  rxBind rxWs (fun _ =>
  rxBind (rxLit "-") (fun _ =>
  rxBind rxWs (fun _ =>
  rxBind rxEndDate (fun ed =>
  rxBind (rxClassRep (fun c => c = '.') 0 1) (fun _ =>
  rxBind rxWs (fun _ =>
  rxBind (rxAlt (rxLit "klo") (rxLit "kello")) (fun _ =>
  rxBind (rxClassStar (fun c => c = '.')) (fun _ =>
  rxBind rxWs (fun _ =>
  rxMap (fun et => (ed, et)) rxEndTime2))))))))))

/-- TIME_RE[1]: end_time, spaces, an optional asti, an optional dot, end
of input.  Returns end_time. -/
def timeRe2 : RxM (List Char) :=
  rxBind rxTime12 (fun et =>
  rxBind rxWs (fun _ =>
  rxBind (rxAlt (rxLit "asti") (rxPure [])) (fun _ =>
  rxBind (rxAlt (rxLit ".") (rxPure [])) (fun _ =>
  rxMap (fun _ => et) rxEnd))))

/-- TIME_RE[2]: start_time, spaces, dash, spaces, end_time.  Returns
end_time. -/
def timeRe3 : RxM (List Char) :=
  rxBind rxTime12 (fun _ =>
  rxBind rxWs (fun _ =>
  rxBind (rxLit "-") (fun _ =>
  rxBind rxWs (fun _ =>
  rxMap (fun et => et) rxTime12))))

def DATE_FORMATS : List (List Dirv) :=
  [[.d, .lit '.', .m],
   [.d, .lit '.', .m, .lit '.'],
   [.d, .lit '.', .m, .lit '.', .Y],
   [.d, .lit '.', .lit '.', .m],
   [.d, .lit '.', .lit '.', .m, .lit '.', .Y]]

def TIME_FORMATS : List (List Dirv) :=
  [[.H, .lit ':', .Mi], [.H]]

/-- The outcome of running the TIME_RE list on the estimated-length text:
for each regex that matched, in order, the end_date group when the regex
has one (IndexError otherwise in the source) and the end_time group. -/
def timeReMatches (est : List Char) : List (Option (List Char) × List Char) :=
  [(rxMatch timeRe1 est).map (fun r => (some r.1, r.2)),
   (rxMatch timeRe2 est).map (fun et => (none, et)),
   (rxMatch timeRe3 est).map (fun et => (none, et))].filterMap id

/-- The date contribution of one matched regex: with an end_date group,
try DATE_FORMATS in order and keep the base 1900-01-01 when none parses;
without one (IndexError), add the month and day of the reference
timestamp, where datetime(1900, month, day) can raise ValueError. -/
def endDateSecs (ed : Option (List Char)) (timestamp : Timestamp) : Except PyError Int :=
  match ed with
  | some ed =>
    match DATE_FORMATS.findSome? (fun f => strptime f ed) with
    | some day_part => .ok (dt1900 + (day_part - dt1900))
    | none => .ok dt1900
  | none =>
    match mkDatetime 1900 timestamp.month timestamp.day 0 0 0 with
    | some dmd => .ok (dt1900 + (dmd - dt1900))
    | none => .error .valueError

/-- The body of the TIME_RE loop of parse_length: process each matched
regex in order; parse the end time with TIME_FORMATS and return on the
first success, otherwise continue with the next matched regex. -/
def parse_length_matches :
    List (Option (List Char) × List Char) → Timestamp → Except PyError (Option LocalizedDT)
  | [], _ => .ok none
  | (ed, et) :: rest, timestamp =>
    match endDateSecs ed timestamp with
    | .error e => .error e
    | .ok base =>
      match TIME_FORMATS.findSome? (fun f => strptime f et) with
      | some time_part =>
        match mkDatetime timestamp.year 1 1 0 0 0 with
        | some y1 =>
          .ok (some (helsinkiLocalize (base + (time_part - dt1900) + (y1 - dt1900))))
        | none => .error .valueError
      | none => parse_length_matches rest timestamp

/-- PoikkeusInfoParser.parse_length: extract the estimated end of the
disruption from the free text after the lead-in phrase. -/
def parse_length (reason : String) (timestamp : Timestamp) :
    Except PyError (Option LocalizedDT) :=
  match pySplit "Arvioitu kesto: ".data reason.data with
  | _ :: estimated_length :: _ =>
    parse_length_matches (timeReMatches estimated_length) timestamp
  | _ => .ok none

/-- REASON_RE: any characters except newline (greedy), the literal Syy:,
spaces, the reason group of non-dot characters (greedy), dots.  Returns
the reason group of the first match (the greedy lead makes the last Syy:
occurrence win, exactly as in the source pattern). -/
def reasonRe : RxM (List Char) :=
  rxBind (rxClassStar (fun c => c ≠ '\n')) (fun _ =>
  rxBind (rxLit "Syy:") (fun _ =>
  rxBind rxWs (fun _ =>
  rxBind (rxClassStar (fun c => c ≠ '.')) (fun r =>
  rxMap (fun _ => r) (rxClassStar (fun c => c = '.'))))))

/-- PoikkeusInfoParser.parse_reason: extract the reason phrase, strip it
and pass it through REASON_MAP.  The utf-8 encode step of the source is
an identity on the modelled text. -/
def parse_reason (text : String) : Option String :=
  match rxMatch reasonRe text.data with
  | some r => some (normalizeReason (String.mk (pyStrip r)))
  | none => none

/-! ## The decoded document tree

xmltodict output is modelled by structures whose fields are the keys the
code reads: attribute keys become plain fields, the reserved text key
becomes an Option field, and a child the schema allows to repeat is a
SingleOrList (xmltodict yields a list only when the element actually
repeats). -/

/-- An element child that xmltodict exposes either as a single mapping or
as a list of mappings. -/
inductive SingleOrList (α : Type) : Type
  | single (a : α)
  | list (xs : List α)
deriving DecidableEq

/-- The single-vs-list normalization the source performs inline. -/
def SingleOrList.toList {α : Type} : SingleOrList α → List α
  | .single a => [a]
  | .list xs => xs

/-- One TEXT child of INFO: the lang attribute and the optional text
content. -/
structure TextItem where
  lang : String
  text : Option String
deriving DecidableEq

/-- The INFO element: its TEXT child (reading a missing TEXT key would
raise KeyError in the source, so the field is total). -/
structure InfoElem where
  TEXT : SingleOrList TextItem
deriving DecidableEq

/-- One LINE child of TARGETS: id, direction and linetype attributes plus
the line number text content; all are read unconditionally. -/
structure LineElem where
  id : String
  direction : String
  linetype : String
  number : String
deriving DecidableEq

/-- The TARGETS element: its LINE children, when any (the source loop
skips every other key of the element). -/
structure TargetsElem where
  LINE : Option (SingleOrList LineElem)
deriving DecidableEq

/-- The VALIDITY element: status, from and to attributes. -/
structure ValidityElem where
  status : String
  from_ : String
  to_ : String
deriving DecidableEq

/-- One DISRUPTION element; TARGETS is None for an empty element. -/
structure DisruptionElem where
  id : String
  type : String
  source : String
  INFO : InfoElem
  TARGETS : Option TargetsElem
  VALIDITY : ValidityElem
deriving DecidableEq

/-- The decoded whole document: either the DISRUPTIONS root with its
optional DISRUPTION children, or some other root tag. -/
inductive Document : Type
  | disruptions (disruption : Option (SingleOrList DisruptionElem))
  | otherRoot (tag : String)
deriving DecidableEq

/-- The info record parse_info builds. -/
structure InfoData where
  length : Option LocalizedDT
  reason : Option String
  text : String
deriving DecidableEq

/-- A parsed target line. -/
structure TargetLine where
  id : String
  direction : Option String
  type : Option String
  number : String
deriving DecidableEq

/-- A parsed validity block. -/
structure Validity where
  valid : Bool
  from_ : LocalizedDT
  to_ : LocalizedDT
deriving DecidableEq

/-- A parsed disruption notification; display_name is added by the filter
only. -/
structure Item where
  id : String
  type : String
  source : String
  info : Option InfoData
  lines : Option (List TargetLine)
  validity : Validity
  display_name : Option String := none
deriving DecidableEq

/-- PoikkeusInfoParser.parse_info: select the fi-language text item (or
the single unwrapped one) and extract length and reason from it. -/
def parse_info (info : InfoElem) (timestamp : Timestamp) :
    Except PyError (Option InfoData) :=
  let text_item : Option TextItem :=
    match info.TEXT with
    | .list items => items.find? (fun item => item.lang == "fi")
    | .single t => some t
  match text_item with
  | some t =>
    match t.text with
    | some txt =>
      match parse_length txt timestamp with
      | .error e => .error e
      | .ok len => .ok (some { length := len, reason := parse_reason txt, text := txt })
    | none => .ok none
  | none => .ok none

/-- PoikkeusInfoParser.parse_targets: None input stays None; otherwise
collect the LINE children (an absent LINE key yields the empty list),
with tolerant direction and linetype lookups. -/
def parse_targets (targets : Option TargetsElem) : Option (List TargetLine) :=
  match targets with
  | none => none
  | some t =>
    match t.LINE with
    | none => some []
    | some sl => some (sl.toList.map (fun line =>
        { id := line.id,
          direction := mapGet DIRECTION_MAP line.direction,
          type := mapGet LINETYPE_MAP line.linetype,
          number := line.number }))

/-- The strptime format of parse_isoformat. -/
def ISO_FORMAT : List Dirv :=
  [.Y, .lit '-', .m, .lit '-', .d, .lit 'T', .H, .lit ':', .Mi, .lit ':', .S]

/-- PoikkeusInfoParser.parse_isoformat: strict timestamp parse, then the
fixed-zone localize; a mismatch raises ValueError in the source. -/
def parse_isoformat (time_string : String) : Except PyError LocalizedDT :=
  match strptime ISO_FORMAT time_string.data with
  | some dtv => .ok (helsinkiLocalize dtv)
  | none => .error .valueError

/-- PoikkeusInfoParser.parse_validity. -/
def parse_validity (validity : ValidityElem) : Except PyError Validity :=
  match parse_isoformat validity.from_ with
  | .error e => .error e
  | .ok f =>
    match parse_isoformat validity.to_ with
    | .error e => .error e
    | .ok t => .ok { valid := validity.status == "1", from_ := f, to_ := t }

/-- PoikkeusInfoParser.parse_item: the type and source lookups use plain
indexing, so a missing code raises (KeyError in the source, the hard
failure the spec names UnknownCodeError); the other fields are delegated. -/
def parse_item (item : DisruptionElem) (timestamp : Timestamp) :
    Except PyError Item :=
  match mapGet TYPE_MAP item.type with
  | none => .error (.unknownCode item.type)
  | some ty =>
    match mapGet SOURCE_MAP item.source with
    | none => .error (.unknownCode item.source)
    | some src =>
      match parse_info item.INFO timestamp with
      | .error e => .error e
      | .ok info =>
        match parse_validity item.VALIDITY with
        | .error e => .error e
        | .ok validity =>
          .ok { id := item.id, type := ty, source := src, info := info,
                lines := parse_targets item.TARGETS, validity := validity }

/-- The accumulation loop over the DISRUPTION elements of
PoikkeusInfoParser.parse. -/
def parseItems : List DisruptionElem → Timestamp → Except PyError (List Item)
  | [], _ => .ok []
  | item :: rest, timestamp =>
    match parse_item item timestamp with
    | .error e => .error e
    | .ok it =>
      match parseItems rest timestamp with
      | .error e => .error e
      | .ok its => .ok (it :: its)

/-- PoikkeusInfoParser.parse: a document without the DISRUPTIONS root
returns with a bare return statement (None, modelled as the outer none);
otherwise each DISRUPTION element is parsed in document order. -/
def parse (content : Document) (timestamp : Timestamp) :
    Except PyError (Option (List Item)) :=
  match content with
  | .otherRoot _ => .ok none
  | .disruptions d =>
    match d with
    | none => .ok (some [])
    | some sl =>
      match parseItems sl.toList timestamp with
      | .error e => .error e
      | .ok items => .ok (some items)

end PoikkeusInfoParser

namespace PoikkeusInfoFilter

open PoikkeusInfoParser

/-- One value of the configuration dictionary: the three optional
constraint keys of a rule. -/
structure FilterRule where
  line_type : Option String := none
  directions : Option (List String) := none
  numbers : Option (List String) := none
deriving DecidableEq

/-- The three continue guards of the inner loop of filter_item, as one
conjunction: a line matches a rule when every constraint the rule
declares is satisfied (an undeclared key skips its guard). -/
def lineMatches (config : FilterRule) (filter_by : TargetLine) : Bool :=
  (match config.line_type with
   | some lt => filter_by.type == some lt
   | none => true) &&
  (match config.directions with
   | some ds =>
     (match filter_by.direction with
      | some d => ds.contains d
      | none => false)
   | none => true) &&
  (match config.numbers with
   | some ns => ns.contains filter_by.number
   | none => true)

/-- The nested loop of filter_item: rules in declared order, and within a
rule the target lines in parsed order; the first rule with a matching
line gives the display name. -/
def scanConfig : List (String × FilterRule) → List TargetLine → Option String
  | [], _ => none
  | (line_name, config) :: rest, lines =>
    match lines.find? (lineMatches config) with
    | some _ => some line_name
    | none => scanConfig rest lines

/-- PoikkeusInfoFilter.filter_item: reject invalid or untargeted items,
then scan the rules; a kept item gets display_name set and is returned
otherwise the function falls through to None. -/
def filter_item (config : List (String × FilterRule)) (item : Item) : Option Item :=
  if !item.validity.valid then none
  else
    match item.lines with
    | none => none
    | some lines =>
      match scanConfig config lines with
      | some line_name => some { item with display_name := some line_name }
      | none => none

/-- PoikkeusInfoFilter.filter: keep the items filter_item returns, in
input order (a returned item dict is never empty, so the truthiness test
of the source is exactly is-some). -/
def filter (config : List (String × FilterRule)) : List Item → List Item
  | [] => []
  | line :: rest =>
    match filter_item config line with
    | some filtered => filtered :: filter config rest
    | none => filter config rest

end PoikkeusInfoFilter

deriving instance DecidableEq for Except

open PoikkeusInfoParser PoikkeusInfoFilter

/-- The notification fields other than display_name, as one record: the
projection under which the filter is required to be a frame-preserving
selection. -/
structure ItemCore where
  id : String
  type : String
  source : String
  info : Option InfoData
  lines : Option (List TargetLine)
  validity : Validity
deriving DecidableEq

def itemCore (i : Item) : ItemCore :=
  { id := i.id, type := i.type, source := i.source, info := i.info,
    lines := i.lines, validity := i.validity }

/-! Concrete sample values used to instantiate the universally quantified
theorems below. -/

def sampleValidity : Validity :=
  { valid := true, from_ := helsinkiLocalize 0, to_ := helsinkiLocalize 0 }

def sampleLine : TargetLine :=
  { id := "1234", direction := some "to_centrum", type := some "tram", number := "6" }

def sampleItem : Item :=
  { id := "x1", type := "advance_info", source := "manual", info := none,
    lines := some [sampleLine], validity := sampleValidity }

def emptyLinesItem : Item :=
  { id := "x2", type := "advance_info", source := "manual", info := none,
    lines := some [], validity := sampleValidity }

def sampleConfig : List (String × FilterRule) :=
  [("6(T)", { line_type := some "tram" }),
   ("six", { numbers := some ["6"] })]

def sampleInfoElem : InfoElem :=
  { TEXT := .single { lang := "fi", text := none } }

def sampleValidityElem : ValidityElem :=
  { status := "1", from_ := "2024-01-01T00:00:00", to_ := "2024-01-02T00:00:00" }

def badTypeElem : DisruptionElem :=
  { id := "b1", type := "9", source := "1", INFO := sampleInfoElem,
    TARGETS := none, VALIDITY := sampleValidityElem }

/-! ## Helper lemmas -/

theorem mapGet_mem_values (l : List (String × String)) (s v : String)
    (h : PoikkeusInfoParser.mapGet l s = some v) : ∃ k, (k, v) ∈ l := by
  induction l with
  | nil => exact absurd h (by simp [PoikkeusInfoParser.mapGet])
  | cons hd tl ih =>
    obtain ⟨k0, v0⟩ := hd
    rw [PoikkeusInfoParser.mapGet] at h
    by_cases hk : k0 = s
    · rw [if_pos hk] at h
      obtain rfl : v0 = v := Option.some.inj h
      exact ⟨k0, List.mem_cons_self _ _⟩
    · rw [if_neg hk] at h
      obtain ⟨k, hmem⟩ := ih h
      exact ⟨k, List.mem_cons_of_mem _ hmem⟩

/-! ## Claim theorems -/

/-- C7: applying the REASON_MAP normalization twice yields the same result
as applying it once; no value of the table is itself a key mapping to a
different value. -/
theorem reason_normalization_idempotent (s : String) :
    normalizeReason (normalizeReason s) = normalizeReason s := by
  cases h : PoikkeusInfoParser.mapGet REASON_MAP s with
  | none =>
    unfold PoikkeusInfoParser.normalizeReason
    rw [h]
    simp only [Option.getD_none]
    rw [h]
    simp only [Option.getD_none]
  | some v =>
    have hkey : ∀ p ∈ REASON_MAP, PoikkeusInfoParser.mapGet REASON_MAP p.2 = none := by decide
    obtain ⟨k, hmem⟩ := mapGet_mem_values REASON_MAP s v h
    have hv : PoikkeusInfoParser.mapGet REASON_MAP v = none := hkey (k, v) hmem
    unfold PoikkeusInfoParser.normalizeReason
    rw [h]
    simp only [Option.getD_some]
    rw [hv]
    simp only [Option.getD_none]

/-- C1: the spec expects the duration text with the reference year 2024 to
parse to 2024-05-23T14:00 Helsinki time; the code instead yields
2024-05-22T14:00, because the year shift is a whole-day timedelta
computed between 1900-01-01 and 2024-01-01 and the leap day of 2024
shifts the May date one day back. -/
theorem scenario_a_leap_year_bug :
    parse_length "Arvioitu kesto: 10:00 - 23.05. klo 14:00" ⟨2024, 6, 1⟩ =
      .ok (some (helsinkiLocalize ((toOrdinal 2024 5 22 : Int) * 86400 + 50400))) ∧
    parse_length "Arvioitu kesto: 10:00 - 23.05. klo 14:00" ⟨2024, 6, 1⟩ ≠
      .ok (some (helsinkiLocalize ((toOrdinal 2024 5 23 : Int) * 86400 + 50400))) :=
  ⟨by decide, by decide⟩

/-- C2 counterexample: on a well-formed document whose root tag is not
DISRUPTIONS, parse returns the Python None (modelled as the outer none),
which is not an empty sequence of notifications. -/
theorem parse_missing_root_cex :
    parse (Document.otherRoot "SOMETAG") ⟨2024, 1, 1⟩ = .ok none ∧
    parse (Document.otherRoot "SOMETAG") ⟨2024, 1, 1⟩ ≠ .ok (some []) :=
  ⟨rfl, by decide⟩

/-- C2 amended: for every well-formed document that lacks the DISRUPTIONS
root tag, parse returns absent (the Python None) rather than an empty
sequence, and raises no error. -/
theorem parse_missing_root_returns_none (tag : String) (ts : Timestamp) :
    parse (Document.otherRoot tag) ts = .ok none := rfl

/-- C3 counterexample: a duration text of the first pattern shape with the
klo marker removed is not matched by the first pattern at all. -/
theorem time_re1_marker_cex :
    rxMatch timeRe1 "10:00 - 23.05. 14:00".data = none := by decide

/-- C3 amended: the klo or kello marker of the first TIME_RE pattern is
mandatory, not optional: with either marker the pattern matches and
captures the end date, without it the pattern does not match and the text
falls through to the third, date-free pattern (here yielding the reference
date with end hour 23, the leading digits of the date token). -/
theorem time_re1_marker_required :
    rxMatch timeRe1 "10:00 - 23.05. klo 14:00".data =
      some ("23.05".data, "14:00".data) ∧
    rxMatch timeRe1 "10:00 - 23.05. kello 14:00".data =
      some ("23.05".data, "14:00".data) ∧
    rxMatch timeRe1 "10:00 - 23.05. 14:00".data = none ∧
    parse_length "Arvioitu kesto: 10:00 - 23.05. 14:00" ⟨2023, 6, 8⟩ =
      .ok (some (helsinkiLocalize ((toOrdinal 2023 6 8 : Int) * 86400 + 82800))) :=
  ⟨by decide, by decide, by decide, by decide⟩

/-- C10: when the first pattern matches but the captured day.month token
parses under none of the DATE_FORMATS (such as the invalid calendar date
31.02), parse_length neither fails nor returns absent: the 1900-01-01
base is kept, so the result is January 1 of the reference year at the
captured end time, localized to Europe/Helsinki. -/
theorem unparseable_end_date_jan1 (ts : Timestamp)
    (h1 : 1 ≤ ts.year) (h2 : ts.year ≤ 9999) :
    parse_length "Arvioitu kesto: 10:00 - 31.02. klo 14:00" ts =
      .ok (some (helsinkiLocalize ((toOrdinal ts.year 1 1 : Int) * 86400 + 50400))) := by
  have hstep : parse_length "Arvioitu kesto: 10:00 - 31.02. klo 14:00" ts =
      parse_length_matches [(some "31.02".data, "14:00".data), (none, "31".data)] ts := rfl
  have hed : endDateSecs (some "31.02".data) ts = .ok dt1900 := rfl
  have htf : TIME_FORMATS.findSome? (fun f => strptime f "14:00".data) =
      some (dt1900 + 50400) := by decide
  have hy : mkDatetime ts.year 1 1 0 0 0 =
      some ((toOrdinal ts.year 1 1 : Int) * 86400) := by
    unfold mkDatetime
    rw [if_pos]
    · norm_num
    · refine ⟨h1, h2, le_refl 1, by norm_num, le_refl 1, ?_, by norm_num, by norm_num, by norm_num⟩
      simp [daysInMonth]
  rw [hstep, parse_length_matches]
  simp only [hed, htf, hy]
  simp only [Except.ok.injEq, Option.some.injEq, helsinkiLocalize, LocalizedDT.mk.injEq, true_and]
  ring

/-- C10 witness at the reference timestamp 2024-06-01. -/
theorem unparseable_end_date_jan1_witness :
    parse_length "Arvioitu kesto: 10:00 - 31.02. klo 14:00" ⟨2024, 6, 1⟩ =
      .ok (some (helsinkiLocalize ((toOrdinal 2024 1 1 : Int) * 86400 + 50400))) :=
  unparseable_end_date_jan1 ⟨2024, 6, 1⟩ (by norm_num) (by norm_num)

theorem filter_item_eq_some {config : List (String × FilterRule)} {i j : Item}
    (h : PoikkeusInfoFilter.filter_item config i = some j) :
    i.validity.valid = true ∧
      ∃ ls name, i.lines = some ls ∧ PoikkeusInfoFilter.scanConfig config ls = some name ∧
        j = { i with display_name := some name } := by
  cases hv : i.validity.valid with
  | false => simp [PoikkeusInfoFilter.filter_item, hv] at h
  | true =>
    cases hl : i.lines with
    | none => simp [PoikkeusInfoFilter.filter_item, hv, hl] at h
    | some ls =>
      cases hs : PoikkeusInfoFilter.scanConfig config ls with
      | none => simp [PoikkeusInfoFilter.filter_item, hv, hl, hs] at h
      | some name =>
        simp only [PoikkeusInfoFilter.filter_item, hv, hl, hs, Bool.not_true,
          Bool.false_eq_true, if_false, Option.some.injEq] at h
        exact ⟨rfl, ls, name, rfl, hs, h.symm⟩

theorem scanConfig_nil (config : List (String × FilterRule)) :
    PoikkeusInfoFilter.scanConfig config [] = none := by
  induction config with
  | nil => rfl
  | cons hd tl ih =>
    obtain ⟨n, c⟩ := hd
    rw [PoikkeusInfoFilter.scanConfig]
    simp only [List.find?_nil]
    exact ih

theorem scanConfig_first (config : List (String × FilterRule)) (ls : List TargetLine)
    (i : Nat) (hi : i < config.length)
    (hhit : ls.any (lineMatches (config.get ⟨i, hi⟩).2) = true)
    (hmiss : ∀ j, (hj : j < i) →
      ls.any (lineMatches (config.get ⟨j, Nat.lt_trans hj hi⟩).2) = false) :
    PoikkeusInfoFilter.scanConfig config ls = some (config.get ⟨i, hi⟩).1 := by
  induction config generalizing i with
  | nil => exact absurd hi (Nat.not_lt_zero i)
  | cons hd tl ih =>
    obtain ⟨name, rule⟩ := hd
    cases i with
    | zero =>
      rw [PoikkeusInfoFilter.scanConfig]
      have hs : (ls.find? (lineMatches rule)).isSome = true := by
        rw [List.find?_isSome]
        exact List.any_eq_true.mp hhit
      cases hf : ls.find? (lineMatches rule) with
      | none => rw [hf] at hs; exact absurd hs (by simp)
      | some y => rfl
    | succ i2 =>
      have h0 : ls.any (lineMatches rule) = false := hmiss 0 (Nat.succ_pos i2)
      have hf : ls.find? (lineMatches rule) = none := by
        rw [List.find?_eq_none]
        exact List.any_eq_false.mp h0
      rw [PoikkeusInfoFilter.scanConfig, hf]
      exact ih i2 (Nat.lt_of_succ_lt_succ hi) hhit
        (fun j hj => hmiss (j + 1) (Nat.succ_lt_succ hj))

/-- C4: the Line Filter never outputs a notification whose validity.valid
is false, nor one whose lines field is absent. -/
theorem filter_output_invariants (config : List (String × FilterRule)) (items : List Item) :
    ∀ x ∈ PoikkeusInfoFilter.filter config items,
      x.validity.valid = true ∧ x.lines ≠ none := by
  induction items with
  | nil => intro x hx; simp [PoikkeusInfoFilter.filter] at hx
  | cons hd tl ih =>
    intro x hx
    rw [PoikkeusInfoFilter.filter] at hx
    cases hfi : PoikkeusInfoFilter.filter_item config hd with
    | none => rw [hfi] at hx; exact ih x hx
    | some j =>
      rw [hfi] at hx
      rcases List.mem_cons.mp hx with rfl | hmem
      · obtain ⟨hv, ls, name, hls, hscan, hj⟩ := filter_item_eq_some hfi
        subst hj
        refine ⟨hv, ?_⟩
        show hd.lines ≠ none
        rw [hls]
        simp
      · exact ih x hmem

/-- C4 witness at a concrete configuration and item list. -/
theorem filter_output_invariants_witness :
    ({ sampleItem with display_name := some "6(T)" } : Item).validity.valid = true ∧
      ({ sampleItem with display_name := some "6(T)" } : Item).lines ≠ none :=
  filter_output_invariants sampleConfig [sampleItem]
    { sampleItem with display_name := some "6(T)" } (by decide)

/-- C8: the Line Filter changes only display_name and preserves relative
order: under the projection that drops display_name, the output list is a
sublist of the input list. -/
theorem filter_frame_and_order (config : List (String × FilterRule)) (items : List Item) :
    ((PoikkeusInfoFilter.filter config items).map itemCore).Sublist (items.map itemCore) := by
  induction items with
  | nil => simp [PoikkeusInfoFilter.filter]
  | cons hd tl ih =>
    rw [PoikkeusInfoFilter.filter]
    cases hfi : PoikkeusInfoFilter.filter_item config hd with
    | none =>
      simp only [List.map]
      exact List.Sublist.cons _ ih
    | some j =>
      obtain ⟨hv, ls, name, hls, hscan, hj⟩ := filter_item_eq_some hfi
      subst hj
      simp only [List.map]
      exact List.Sublist.cons₂ _ ih

/-- C9: a notification whose lines field is present but an empty sequence
is dropped by filter_item under every rule configuration, and the filter
output never contains such a notification. -/
theorem filter_drops_empty_lines :
    (∀ (config : List (String × FilterRule)) (item : Item),
        item.lines = some [] → PoikkeusInfoFilter.filter_item config item = none) ∧
    (∀ (config : List (String × FilterRule)) (items : List Item),
        ∀ x ∈ PoikkeusInfoFilter.filter config items, x.lines ≠ some []) := by
  constructor
  · intro config item hl
    cases hv : item.validity.valid with
    | false => simp [PoikkeusInfoFilter.filter_item, hv]
    | true => simp [PoikkeusInfoFilter.filter_item, hv, hl, scanConfig_nil]
  · intro config items
    induction items with
    | nil => intro x hx; simp [PoikkeusInfoFilter.filter] at hx
    | cons hd tl ih =>
      intro x hx
      rw [PoikkeusInfoFilter.filter] at hx
      cases hfi : PoikkeusInfoFilter.filter_item config hd with
      | none => rw [hfi] at hx; exact ih x hx
      | some j =>
        rw [hfi] at hx
        rcases List.mem_cons.mp hx with rfl | hmem
        · obtain ⟨hv, ls, name, hls, hscan, hj⟩ := filter_item_eq_some hfi
          subst hj
          intro hcon
          rw [show ({ hd with display_name := some name } : Item).lines = hd.lines from rfl,
            hls] at hcon
          obtain rfl : ls = [] := Option.some.inj hcon
          rw [scanConfig_nil] at hscan
          exact Option.noConfusion hscan
        · exact ih x hmem

/-- C9 witness: a concrete notification with an empty lines sequence is
dropped. -/
theorem filter_drops_empty_lines_witness :
    PoikkeusInfoFilter.filter_item sampleConfig emptyLinesItem = none :=
  filter_drops_empty_lines.1 sampleConfig emptyLinesItem rfl

/-- C6: a target line matches a rule iff every constraint the rule
declares is satisfied, undeclared constraints acting as wildcards; and
filter_item, scanning rules in declared order over the lines in parsed
order, assigns the display name of the first rule having some matching
line, so of two matching rules the earlier-declared one wins. -/
theorem filter_rule_order :
    (∀ (rule : FilterRule) (line : TargetLine),
        lineMatches rule line = true ↔
          ((∀ lt, rule.line_type = some lt → line.type = some lt) ∧
           (∀ ds, rule.directions = some ds → ∃ d, line.direction = some d ∧ d ∈ ds) ∧
           (∀ ns, rule.numbers = some ns → line.number ∈ ns))) ∧
    (∀ (config : List (String × FilterRule)) (item : Item) (ls : List TargetLine)
        (i : Nat) (hi : i < config.length),
        item.validity.valid = true → item.lines = some ls →
        ls.any (lineMatches (config.get ⟨i, hi⟩).2) = true →
        (∀ j, (hj : j < i) →
          ls.any (lineMatches (config.get ⟨j, Nat.lt_trans hj hi⟩).2) = false) →
        PoikkeusInfoFilter.filter_item config item =
          some { item with display_name := some (config.get ⟨i, hi⟩).1 }) := by
  constructor
  · intro rule line
    constructor
    · intro h
      unfold PoikkeusInfoFilter.lineMatches at h
      rw [Bool.and_eq_true, Bool.and_eq_true] at h
      obtain ⟨⟨h1, h2⟩, h3⟩ := h
      refine ⟨?_, ?_, ?_⟩
      · intro lt hlt
        rw [hlt] at h1
        exact eq_of_beq h1
      · intro ds hds
        rw [hds] at h2
        cases hdir : line.direction with
        | none => rw [hdir] at h2; exact absurd h2 (by simp)
        | some d =>
          rw [hdir] at h2
          exact ⟨d, rfl, List.elem_iff.mp h2⟩
      · intro ns hns
        rw [hns] at h3
        exact List.elem_iff.mp h3
    · intro h
      obtain ⟨h1, h2, h3⟩ := h
      unfold PoikkeusInfoFilter.lineMatches
      rw [Bool.and_eq_true, Bool.and_eq_true]
      refine ⟨⟨?_, ?_⟩, ?_⟩
      · cases hlt : rule.line_type with
        | none => rfl
        | some lt =>
          have := h1 lt hlt
          rw [this]
          exact beq_self_eq_true _
      · cases hds : rule.directions with
        | none => rfl
        | some ds =>
          obtain ⟨d, hd, hmem⟩ := h2 ds hds
          rw [hd]
          exact List.elem_iff.mpr hmem
      · cases hns : rule.numbers with
        | none => rfl
        | some ns =>
          exact List.elem_iff.mpr (h3 ns hns)
  · intro config item ls i hi hvalid hlines hhit hmiss
    simp only [PoikkeusInfoFilter.filter_item, hvalid, hlines, Bool.not_true,
      Bool.false_eq_true, if_false, scanConfig_first config ls i hi hhit hmiss]

/-- C6 witness: two rules of the sample configuration both match the
sample item; the earlier-declared one names the result. -/
theorem filter_rule_order_witness :
    PoikkeusInfoFilter.filter_item sampleConfig sampleItem =
      some { sampleItem with display_name := some "6(T)" } :=
  filter_rule_order.2 sampleConfig sampleItem [sampleLine] 0 (by decide) rfl rfl
    (by decide) (fun j hj => absurd hj (Nat.not_lt_zero j))


theorem endDateSecs_no_unknown (ed : Option (List Char)) (ts : Timestamp) (c : String) :
    PoikkeusInfoParser.endDateSecs ed ts ≠ .error (.unknownCode c) := by
  cases ed with
  | some e =>
    cases h : DATE_FORMATS.findSome? (fun f => strptime f e) with
    | some dp => simp [PoikkeusInfoParser.endDateSecs, h]
    | none => simp [PoikkeusInfoParser.endDateSecs, h]
  | none =>
    cases h : mkDatetime 1900 ts.month ts.day 0 0 0 with
    | some dmd => simp [PoikkeusInfoParser.endDateSecs, h]
    | none => simp [PoikkeusInfoParser.endDateSecs, h]

theorem parse_length_matches_no_unknown (ms : List (Option (List Char) × List Char))
    (ts : Timestamp) (c : String) :
    PoikkeusInfoParser.parse_length_matches ms ts ≠ .error (.unknownCode c) := by
  induction ms with
  | nil => simp [PoikkeusInfoParser.parse_length_matches]
  | cons hd tl ih =>
    obtain ⟨ed, et⟩ := hd
    rw [PoikkeusInfoParser.parse_length_matches]
    cases hb : PoikkeusInfoParser.endDateSecs ed ts with
    | error e =>
      cases e with
      | unknownCode c2 => exact absurd hb (endDateSecs_no_unknown ed ts c2)
      | valueError => simp
    | ok base =>
      cases hf : TIME_FORMATS.findSome? (fun f => strptime f et) with
      | some tp =>
        cases hy : mkDatetime ts.year 1 1 0 0 0 with
        | some y1 => simp [hf, hy]
        | none => simp [hf, hy]
      | none => simp only [hf]; exact ih

theorem parse_length_no_unknown (r : String) (ts : Timestamp) (c : String) :
    parse_length r ts ≠ .error (.unknownCode c) := by
  unfold PoikkeusInfoParser.parse_length
  cases pySplit "Arvioitu kesto: ".data r.data with
  | nil => simp
  | cons a rest =>
    cases rest with
    | nil => simp
    | cons b rest2 => exact parse_length_matches_no_unknown _ ts c

theorem parse_info_no_unknown (info : InfoElem) (ts : Timestamp) (c : String) :
    PoikkeusInfoParser.parse_info info ts ≠ .error (.unknownCode c) := by
  obtain ⟨TEXT⟩ := info
  have htext : ∀ t : Option TextItem,
      (match t with
       | some t =>
         match t.text with
         | some txt =>
           match parse_length txt ts with
           | .error e => Except.error e
           | .ok len =>
             Except.ok (some { length := len, reason := parse_reason txt, text := txt })
         | none => Except.ok none
       | none => Except.ok none) ≠
        (Except.error (PyError.unknownCode c) : Except PyError (Option InfoData)) := by
    intro t
    cases t with
    | none => simp
    | some u =>
      obtain ⟨lang, utext⟩ := u
      cases utext with
      | none => simp
      | some txt =>
        cases hpl : parse_length txt ts with
        | error e =>
          cases e with
          | unknownCode c2 => exact absurd hpl (parse_length_no_unknown txt ts c2)
          | valueError => simp [hpl]
        | ok len => simp [hpl]
  cases TEXT with
  | list items => exact htext (items.find? (fun item => item.lang == "fi"))
  | single t => exact htext (some t)

theorem parse_isoformat_no_unknown (s : String) (c : String) :
    parse_isoformat s ≠ .error (.unknownCode c) := by
  cases h : strptime ISO_FORMAT s.data with
  | some d => simp [PoikkeusInfoParser.parse_isoformat, h]
  | none => simp [PoikkeusInfoParser.parse_isoformat, h]

theorem parse_validity_no_unknown (v : ValidityElem) (c : String) :
    parse_validity v ≠ .error (.unknownCode c) := by
  unfold PoikkeusInfoParser.parse_validity
  cases hf : parse_isoformat v.from_ with
  | error e =>
    cases e with
    | unknownCode c2 => exact absurd hf (parse_isoformat_no_unknown _ c2)
    | valueError => simp
  | ok f =>
    cases ht : parse_isoformat v.to_ with
    | error e =>
      cases e with
      | unknownCode c2 => exact absurd ht (parse_isoformat_no_unknown _ c2)
      | valueError => simp [ht]
    | ok t => simp [ht]

/-- C5: a disruption element whose type or source code is absent from its
lookup table makes parse_item fail hard with the unknown-code error (the
KeyError of the source), never a silently defaulted record; when both
codes are present, no unknown-code failure arises from these lookups. -/
theorem parse_item_code_lookup (item : DisruptionElem) (ts : Timestamp) :
    (PoikkeusInfoParser.mapGet TYPE_MAP item.type = none →
        parse_item item ts = .error (.unknownCode item.type)) ∧
    ((PoikkeusInfoParser.mapGet TYPE_MAP item.type).isSome = true →
        PoikkeusInfoParser.mapGet SOURCE_MAP item.source = none →
        parse_item item ts = .error (.unknownCode item.source)) ∧
    ((PoikkeusInfoParser.mapGet TYPE_MAP item.type).isSome = true →
        (PoikkeusInfoParser.mapGet SOURCE_MAP item.source).isSome = true →
        ∀ c, parse_item item ts ≠ .error (.unknownCode c)) := by
  refine ⟨?_, ?_, ?_⟩
  · intro h
    simp only [PoikkeusInfoParser.parse_item, h]
  · intro h1 h2
    obtain ⟨ty, hty⟩ := Option.isSome_iff_exists.mp h1
    simp only [PoikkeusInfoParser.parse_item, hty, h2]
  · intro h1 h2 c
    obtain ⟨ty, hty⟩ := Option.isSome_iff_exists.mp h1
    obtain ⟨src, hsrc⟩ := Option.isSome_iff_exists.mp h2
    simp only [PoikkeusInfoParser.parse_item, hty, hsrc]
    cases hinfo : PoikkeusInfoParser.parse_info item.INFO ts with
    | error e =>
      cases e with
      | unknownCode c2 => exact absurd hinfo (parse_info_no_unknown _ ts c2)
      | valueError => simp [hinfo]
    | ok info =>
      cases hval : parse_validity item.VALIDITY with
      | error e =>
        cases e with
        | unknownCode c2 => exact absurd hval (parse_validity_no_unknown _ c2)
        | valueError => simp [hinfo, hval]
      | ok validity => simp [hinfo, hval]

/-- C5 witness: a concrete disruption element with the unrecognized type
code 9 fails with the unknown-code error. -/
theorem parse_item_code_lookup_witness :
    parse_item badTypeElem ⟨2024, 1, 1⟩ = .error (.unknownCode "9") :=
  (parse_item_code_lookup badTypeElem ⟨2024, 1, 1⟩).1 (by decide)
